import Mathlib

/-!
# Verification of the Stellend lending-protocol core

Shallow embedding of the Stellend contracts
(`contracts/interest_rate_model/src/lib.rs`, `contracts/pool/src/lib.rs`,
`contracts/price_oracle/src/lib.rs`) and proofs about them.

Rust `i128` values are modelled as unbounded `Int`: every arithmetic
operation in the contracts is checked (a Soroban overflow traps and
reverts the transaction), so in any state where an operation completes
the unbounded value coincides with the machine value.  Rust `/` on the
values reached by the claims below operates on non-negative operands,
where Rust truncation and Lean's Euclidean `Int` division agree.

A Soroban `panic!` aborts the host transaction and discards every
storage write of the enclosing invocation; a panicking entry point is
therefore modelled as returning `none` and leaving the state unchanged.
-/

namespace Stellend

/-- Scaling factor for percentages and rates (1e7), from both contracts. -/
def SCALE : Int := 10000000

/-- Initial exchange rate / index scale (1e9), `INITIAL_EXCHANGE_RATE` in the pool. -/
def INITIAL_EXCHANGE_RATE : Int := 1000000000

/-- Close factor: maximum portion of debt liquidatable in one call (50%). -/
def CLOSE_FACTOR : Int := 5000000

/-- Liquidation bonus: extra collateral given to the liquidator (5%). -/
def LIQUIDATION_BONUS : Int := 500000

/-- Seconds per year (365.25 days), used by interest accrual. -/
def SECONDS_PER_YEAR : Int := 31557600

/-- Utilization threshold 85% (interest_rate_model `U_85`). -/
def U_85 : Int := 8500000

/-- Utilization threshold 90%. -/
def U_90 : Int := 9000000

/-- Utilization threshold 95%. -/
def U_95 : Int := 9500000

/-- Utilization threshold 99%. -/
def U_99 : Int := 9900000

/-!
## Interest rate model contract (`interest_rate_model/src/lib.rs`)

`raw_borrow_rate` is the `raw_rate` let-body of `get_borrow_rate`
(lines 218-280); `get_borrow_rate` applies the `rate_min` floor.
The four parameters are the contract's stored `RateMin`, `RateOpt`,
`RateMax`, `OptimalUtilization` values.
-/

def raw_borrow_rate (rate_opt rate_max u_optimal utilization : Int) : Int :=
  let delta_r := rate_max - rate_opt
  if utilization ≤ u_optimal then
    -- Zone 1: linear ramp from 0 to U*
    (rate_opt * utilization) / u_optimal
  else if utilization ≤ U_85 then
    -- Zone 2: U* to 85%, adds 5% of ΔR
    let range := U_85 - u_optimal
    let progress := utilization - u_optimal
    let penalty := (delta_r * 50 * progress) / (range * 1000)
    rate_opt + penalty
  else if utilization ≤ U_90 then
    -- Zone 3: 85% to 90%, adds 10% of ΔR
    let base_penalty := (delta_r * 50) / 1000
    let range := U_90 - U_85
    let progress := utilization - U_85
    let extra_penalty := (delta_r * 100 * progress) / (range * 1000)
    rate_opt + base_penalty + extra_penalty
  else if utilization ≤ U_95 then
    -- Zone 4: 90% to 95%, adds 15% of ΔR
    let base_penalty := (delta_r * 150) / 1000
    let range := U_95 - U_90
    let progress := utilization - U_90
    let extra_penalty := (delta_r * 150 * progress) / (range * 1000)
    rate_opt + base_penalty + extra_penalty
  else if utilization ≤ U_99 then
    -- Zone 5: 95% to 99%, adds 20% of ΔR
    let base_penalty := (delta_r * 300) / 1000
    let range := U_99 - U_95
    let progress := utilization - U_95
    let extra_penalty := (delta_r * 200 * progress) / (range * 1000)
    rate_opt + base_penalty + extra_penalty
  else
    -- Zone 6: 99% to 100%, adds 50% of ΔR
    let base_penalty := (delta_r * 500) / 1000
    let range := SCALE - U_99
    let progress := if utilization ≥ SCALE then range else utilization - U_99
    let extra_penalty := (delta_r * 500 * progress) / (range * 1000)
    rate_opt + base_penalty + extra_penalty

/-- `InterestRateModel.get_borrow_rate`: raw multi-kink rate with the
`rate_min` floor applied at the end. -/
def get_borrow_rate (rate_min rate_opt rate_max u_optimal utilization : Int) : Int :=
  let raw_rate := raw_borrow_rate rate_opt rate_max u_optimal utilization
  if raw_rate < rate_min then rate_min else raw_rate

/-- Parameter validation of `InterestRateModel.initialize` (lines 152-160):
the parameter set is accepted iff these checks pass. -/
def validRateParams (rate_min rate_opt rate_max optimal_utilization : Int) : Prop :=
  (0 < optimal_utilization ∧ optimal_utilization < SCALE) ∧
  rate_min ≤ rate_opt ∧ rate_opt ≤ rate_max

instance (a b c d : Int) : Decidable (validRateParams a b c d) := by
  unfold validRateParams; infer_instance

/-!
## Pool contract rate curve (`pool/src/lib.rs`, `calculate_borrow_rate`)

The pool hardcodes its own copy of the multi-kink curve with the default
parameters (lines 719-781).
-/

def calculate_borrow_rate (utilization : Int) : Int :=
  let rate_min : Int := 0
  let rate_opt : Int := 400000
  let rate_max : Int := 10000000
  let u_optimal : Int := 8000000
  let u_85 : Int := 8500000
  let u_90 : Int := 9000000
  let u_95 : Int := 9500000
  let u_99 : Int := 9900000
  let delta_r := rate_max - rate_opt
  let raw_rate :=
    if utilization ≤ u_optimal then
      (rate_opt * utilization) / u_optimal
    else if utilization ≤ u_85 then
      let range := u_85 - u_optimal
      let progress := utilization - u_optimal
      let penalty := (delta_r * 50 * progress) / (range * 1000)
      rate_opt + penalty
    else if utilization ≤ u_90 then
      let base_penalty := (delta_r * 50) / 1000
      let range := u_90 - u_85
      let progress := utilization - u_85
      let extra_penalty := (delta_r * 100 * progress) / (range * 1000)
      rate_opt + base_penalty + extra_penalty
    else if utilization ≤ u_95 then
      let base_penalty := (delta_r * 150) / 1000
      let range := u_95 - u_90
      let progress := utilization - u_90
      let extra_penalty := (delta_r * 150 * progress) / (range * 1000)
      rate_opt + base_penalty + extra_penalty
    else if utilization ≤ u_99 then
      let base_penalty := (delta_r * 300) / 1000
      let range := u_99 - u_95
      let progress := utilization - u_95
      let extra_penalty := (delta_r * 200 * progress) / (range * 1000)
      rate_opt + base_penalty + extra_penalty
    else
      let base_penalty := (delta_r * 500) / 1000
      let range := SCALE - u_99
      let progress := if utilization ≥ SCALE then range else utilization - u_99
      let extra_penalty := (delta_r * 500 * progress) / (range * 1000)
      rate_opt + base_penalty + extra_penalty
  if raw_rate < rate_min then rate_min else raw_rate

/-- Modelled from the spec: the two-slope rate curve "variant B"
(`u ≤ U*`: `base + slope1*u/U*`; `u > U*`: `base + slope1 +
slope2*(u−U*)/(SCALE−U*)`), which no source file implements; the pool's
doc comment advertises its parameters and example rates, but the body of
`calculate_borrow_rate` implements the multi-kink curve instead. -/
def two_slope_rate (base slope1 slope2 u_optimal u : Int) : Int :=
  if u ≤ u_optimal then
    base + slope1 * u / u_optimal
  else
    base + slope1 + slope2 * (u - u_optimal) / (SCALE - u_optimal)

/-!
## Per-asset market state (`pool/src/lib.rs`)

One record per asset holding the pool's per-asset storage keys
(`TotalSupply`, `TotalShares`, `TotalBorrow`, `ExchangeRate`,
`BorrowIndex`, `LastAccrualTime`, `ReserveFactor`, `TotalReserves`) and
the per-asset configuration (`LtvRatio`, `LiquidationThreshold`,
`CollateralEnabled`, `BorrowEnabled`).  The stored `ExchangeRate` key is
written at initialization and never read back (the pool always derives
the live rate via `get_exchange_rate_internal`); it is kept for fidelity.
-/

structure Market where
  totalSupply : Int
  totalShares : Int
  totalBorrow : Int
  exchangeRate : Int
  borrowIndex : Int
  lastAccrualTime : Nat
  reserveFactor : Int
  totalReserves : Int
  ltvRatio : Int
  liqThreshold : Int
  collateralEnabled : Bool
  borrowEnabled : Bool
deriving DecidableEq

/-- `LendingPool::accrue_interest` (pool lines 594-685), acting on one
asset's market record at ledger timestamp `current_time`. -/
def accrue_interest (current_time : Nat) (m : Market) : Market :=
  -- Skip if no time has passed
  if current_time ≤ m.lastAccrualTime then m
  else
    let time_elapsed : Int := (current_time : Int) - (m.lastAccrualTime : Int)
    -- Skip if nothing to accrue on (only the timestamp advances)
    if m.totalBorrow = 0 ∨ m.totalSupply = 0 then
      { m with lastAccrualTime := current_time }
    else
      let utilization := (m.totalBorrow * SCALE) / m.totalSupply
      let annual_borrow_rate := calculate_borrow_rate utilization
      let interest_factor := (annual_borrow_rate * time_elapsed) / SECONDS_PER_YEAR
      let new_borrow_index := m.borrowIndex + (m.borrowIndex * interest_factor) / SCALE
      let interest_accrued := (m.totalBorrow * interest_factor) / SCALE
      let reserve_interest := (interest_accrued * m.reserveFactor) / SCALE
      let supplier_interest := interest_accrued - reserve_interest
      { m with
        borrowIndex := new_borrow_index
        totalSupply := m.totalSupply + supplier_interest
        totalReserves := m.totalReserves + reserve_interest
        lastAccrualTime := current_time }

/-- `LendingPool::get_exchange_rate_internal` (pool lines 788-803). -/
def get_exchange_rate_internal (m : Market) : Int :=
  if m.totalShares = 0 then INITIAL_EXCHANGE_RATE
  else
    let total_underlying := m.totalSupply + m.totalBorrow - m.totalReserves
    (total_underlying * INITIAL_EXCHANGE_RATE) / m.totalShares

/-!
## Assets, prices and the full pool state

The pool hardcodes the two asset symbols `XLM` and `USDC`: `initialize`
creates exactly these two markets, `get_user_position` enumerates them
explicitly, and `get_fallback_price` panics on any other symbol, so the
reachable key space is this two-element type.
-/

inductive Asset where
  | XLM
  | USDC
deriving DecidableEq, Fintype

/-- `LendingPool::get_fallback_price` (pool lines 866-874).  The
`panic!("Unknown asset")` arm is unreachable over the two pool assets. -/
def get_fallback_price (asset : Asset) : Int :=
  match asset with
  | Asset.XLM => 3000000  -- $0.30
  | Asset.USDC => SCALE   -- $1.00

/-- `LendingPool::get_asset_price` (pool lines 845-861) with the
compile-time `USE_ORACLE` constant as a parameter and the oracle's
`get_price` answer supplied as the function `oracle_price` (the oracle
returns `0` when a price was never set). -/
def get_asset_price_flagged (use_oracle : Bool) (oracle_price : Asset → Int)
    (asset : Asset) : Int :=
  if use_oracle then
    let price := oracle_price asset
    -- Fallback if price not set
    if price = 0 then get_fallback_price asset else price
  else
    -- Use fallback prices (for testing without deployed oracle)
    get_fallback_price asset

/-- The shipped value of the pool's `USE_ORACLE` constant (line 141). -/
def USE_ORACLE : Bool := false

/-- `get_asset_price` exactly as the shipped pool evaluates it. -/
def get_asset_price (oracle_price : Asset → Int) (asset : Asset) : Int :=
  get_asset_price_flagged USE_ORACLE oracle_price asset

/-- The whole pool contract state: one `Market` per asset plus the four
per-`(user, asset)` persistent entries (`UserShares`, `UserCollateral`,
`UserDebt`, `UserBorrowIndex`).  The maps are total functions whose
values at untouched keys play the role of the `unwrap_or` defaults. -/
structure PoolState (U : Type) where
  market : Asset → Market
  shares : U → Asset → Int
  collateral : U → Asset → Int
  debt : U → Asset → Int
  userIndex : U → Asset → Int

section PoolOps

variable {U : Type} [DecidableEq U]

def updMarket (s : PoolState U) (a : Asset) (m : Market) : PoolState U :=
  { s with market := fun b => if b = a then m else s.market b }

def setShares (s : PoolState U) (u : U) (a : Asset) (v : Int) : PoolState U :=
  { s with shares := fun u' b => if u' = u ∧ b = a then v else s.shares u' b }

def setCollateral (s : PoolState U) (u : U) (a : Asset) (v : Int) : PoolState U :=
  { s with collateral := fun u' b => if u' = u ∧ b = a then v else s.collateral u' b }

def setDebt (s : PoolState U) (u : U) (a : Asset) (v : Int) : PoolState U :=
  { s with debt := fun u' b => if u' = u ∧ b = a then v else s.debt u' b }

def setUserIndex (s : PoolState U) (u : U) (a : Asset) (v : Int) : PoolState U :=
  { s with userIndex := fun u' b => if u' = u ∧ b = a then v else s.userIndex u' b }

/-- `LendingPool::get_user_debt_with_interest` (pool lines 806-831). -/
def get_user_debt_with_interest (s : PoolState U) (user : U) (asset : Asset) : Int :=
  let principal := s.debt user asset
  if principal = 0 then 0
  else (principal * (s.market asset).borrowIndex) / (s.userIndex user asset)

/-- `LendingPool::get_user_debt_total` (pool lines 1024-1026). -/
def get_user_debt_total (s : PoolState U) (user : U) (asset : Asset) : Int :=
  get_user_debt_with_interest s user asset

/-- Result record of `get_user_position`. -/
structure UserPosition where
  collateral_value_usd : Int
  debt_value_usd : Int
  available_borrow_usd : Int
  health_factor : Int
deriving DecidableEq

/-- `LendingPool::get_user_position` (pool lines 881-951): XLM and USDC
collateral are valued and LTV-weighted, only USDC debt exists (XLM is not
borrowable), and the health factor uses the XLM market's liquidation
threshold as the single representative threshold. -/
def get_user_position (oracle_price : Asset → Int) (s : PoolState U) (user : U) :
    UserPosition :=
  let xlm_collateral := s.collateral user Asset.XLM
  let xlm_cw : Int × Int :=
    if xlm_collateral > 0 then
      let xlm_price := get_asset_price oracle_price Asset.XLM
      let xlm_value := (xlm_collateral * xlm_price) / SCALE
      let xlm_ltv := (s.market Asset.XLM).ltvRatio
      (xlm_value, (xlm_value * xlm_ltv) / SCALE)
    else (0, 0)
  let usdc_collateral := s.collateral user Asset.USDC
  let usdc_cw : Int × Int :=
    if usdc_collateral > 0 then
      let usdc_price := get_asset_price oracle_price Asset.USDC
      let usdc_value := (usdc_collateral * usdc_price) / SCALE
      let usdc_ltv := (s.market Asset.USDC).ltvRatio
      (usdc_value, (usdc_value * usdc_ltv) / SCALE)
    else (0, 0)
  let collateral_value_usd := xlm_cw.1 + usdc_cw.1
  let weighted_collateral_usd := xlm_cw.2 + usdc_cw.2
  let usdc_debt := get_user_debt_with_interest s user Asset.USDC
  let debt_value_usd :=
    if usdc_debt > 0 then
      (usdc_debt * get_asset_price oracle_price Asset.USDC) / SCALE
    else 0
  let available_borrow_usd :=
    if weighted_collateral_usd > debt_value_usd then
      weighted_collateral_usd - debt_value_usd
    else 0
  let health_factor :=
    if debt_value_usd = 0 then 999 * SCALE
    else (collateral_value_usd * (s.market Asset.XLM).liqThreshold) / debt_value_usd
  { collateral_value_usd := collateral_value_usd
    debt_value_usd := debt_value_usd
    available_borrow_usd := available_borrow_usd
    health_factor := health_factor }

/-- `LendingPool::init_market` (pool lines 186-199). -/
def init_market (ltv liq_threshold : Int) (collateral borrow : Bool) (now : Nat) :
    Market :=
  { totalSupply := 0
    totalShares := 0
    totalBorrow := 0
    exchangeRate := INITIAL_EXCHANGE_RATE
    borrowIndex := INITIAL_EXCHANGE_RATE
    lastAccrualTime := now
    reserveFactor := 1000000  -- 10%
    totalReserves := 0
    ltvRatio := ltv
    liqThreshold := liq_threshold
    collateralEnabled := collateral
    borrowEnabled := borrow }

/-- The pool state created by `LendingPool::initialize` (pool lines
157-183): the XLM market (75% LTV, 80% liquidation threshold, collateral
only) and the USDC market (80% LTV, 85% threshold, borrowable), with all
user maps at their `unwrap_or` defaults. -/
def initial_pool (U : Type) (now : Nat) : PoolState U :=
  { market := fun a =>
      match a with
      | Asset.XLM => init_market 7500000 8000000 true false now
      | Asset.USDC => init_market 8000000 8500000 true true now
    shares := fun _ _ => 0
    collateral := fun _ _ => 0
    debt := fun _ _ => 0
    userIndex := fun _ _ => INITIAL_EXCHANGE_RATE }

/-!
### Public entry points

Each entry point returns `none` exactly when the Rust code panics
(directly or inside the custody collaborator, whose `transfer` traps on
negative amounts); a panic reverts every storage write of the call.
-/

/-- `LendingPool::supply` (pool lines 217-262). -/
def supply (now : Nat) (s : PoolState U) (user : U) (asset : Asset) (amount : Int) :
    Option (PoolState U × Int) :=
  if amount ≤ 0 then none
  else
    let s1 := updMarket s asset (accrue_interest now (s.market asset))
    let exchange_rate := get_exchange_rate_internal (s1.market asset)
    let shares_to_mint := (amount * INITIAL_EXCHANGE_RATE) / exchange_rate
    if shares_to_mint ≤ 0 then none
    else
      -- token transfer user → pool (custody collaborator)
      let s2 := setShares s1 user asset (s1.shares user asset + shares_to_mint)
      let s3 := updMarket s2 asset
        { s2.market asset with
          totalSupply := (s2.market asset).totalSupply + amount
          totalShares := (s2.market asset).totalShares + shares_to_mint }
      some (s3, shares_to_mint)

/-- `LendingPool::withdraw` (pool lines 275-326). -/
def withdraw (now : Nat) (s : PoolState U) (user : U) (asset : Asset)
    (share_amount : Int) : Option (PoolState U × Int) :=
  if share_amount ≤ 0 then none
  else
    let s1 := updMarket s asset (accrue_interest now (s.market asset))
    let user_shares := s1.shares user asset
    if user_shares < share_amount then none
    else
      let exchange_rate := get_exchange_rate_internal (s1.market asset)
      let underlying_amount := (share_amount * exchange_rate) / INITIAL_EXCHANGE_RATE
      let total_supply := (s1.market asset).totalSupply
      let total_borrow := (s1.market asset).totalBorrow
      if total_supply - total_borrow < underlying_amount then none
      else
        let s2 := setShares s1 user asset (user_shares - share_amount)
        let s3 := updMarket s2 asset
          { s2.market asset with
            totalSupply := total_supply - underlying_amount
            totalShares := (s2.market asset).totalShares - share_amount }
        -- token transfer pool → user; the custody collaborator traps on a
        -- negative amount
        if underlying_amount < 0 then none
        else some (s3, underlying_amount)

/-- `LendingPool::deposit_collateral` (pool lines 341-377). -/
def deposit_collateral (s : PoolState U) (user : U) (asset : Asset) (amount : Int) :
    Option (PoolState U × Int) :=
  if amount ≤ 0 then none
  else if ¬(s.market asset).collateralEnabled then none
  else
    -- token transfer user → pool
    some (setCollateral s user asset (s.collateral user asset + amount), amount)

/-- `LendingPool::withdraw_collateral` (pool lines 385-429).  The result
carries the final stored state explicitly because the code temporarily
writes the reduced balance, runs the health check on it, and writes the
old balance back before panicking on failure; `none` marks the panic. -/
def withdraw_collateral (oracle_price : Asset → Int) (s : PoolState U) (user : U)
    (asset : Asset) (amount : Int) : PoolState U × Option Int :=
  if amount ≤ 0 then (s, none)
  else
    let current_collateral := s.collateral user asset
    if current_collateral < amount then (s, none)
    else
      let new_collateral := current_collateral - amount
      -- temporary write used for the hypothetical health check
      let s1 := setCollateral s user asset new_collateral
      let position := get_user_position oracle_price s1 user
      if position.debt_value_usd > 0 ∧ position.health_factor < SCALE then
        -- revert the temporary update, then panic
        (setCollateral s1 user asset current_collateral, none)
      else
        -- token transfer pool → user
        (s1, some amount)

/-- `LendingPool::borrow` (pool lines 444-514). -/
def borrow (now : Nat) (oracle_price : Asset → Int) (s : PoolState U) (user : U)
    (asset : Asset) (amount : Int) : Option (PoolState U × Int) :=
  if amount ≤ 0 then none
  else if ¬(s.market asset).borrowEnabled then none
  else
    let s1 := updMarket s asset (accrue_interest now (s.market asset))
    let total_supply := (s1.market asset).totalSupply
    let total_borrow := (s1.market asset).totalBorrow
    if total_supply - total_borrow < amount then none
    else
      let position := get_user_position oracle_price s1 user
      let asset_price := get_asset_price oracle_price asset
      let borrow_value_usd := (amount * asset_price) / SCALE
      if position.debt_value_usd + borrow_value_usd >
          position.available_borrow_usd + position.debt_value_usd then none
      else
        let current_debt := s1.debt user asset
        let s2 := setDebt s1 user asset (current_debt + amount)
        let s3 := setUserIndex s2 user asset ((s1.market asset).borrowIndex)
        let s4 := updMarket s3 asset
          { s3.market asset with totalBorrow := total_borrow + amount }
        -- token transfer pool → user
        some (s4, amount)

/-- `LendingPool::repay` (pool lines 527-572). -/
def repay (now : Nat) (s : PoolState U) (user : U) (asset : Asset) (amount : Int) :
    Option (PoolState U × Int) :=
  if amount ≤ 0 then none
  else
    let s1 := updMarket s asset (accrue_interest now (s.market asset))
    let user_debt := get_user_debt_with_interest s1 user asset
    if user_debt = 0 then none
    else
      let repay_amount := if amount > user_debt then user_debt else amount
      -- token transfer user → pool; traps on a negative amount
      if repay_amount < 0 then none
      else
        let current_debt := s1.debt user asset
        let new_debt :=
          if repay_amount ≥ user_debt then 0 else current_debt - repay_amount
        let s2 := setDebt s1 user asset new_debt
        let total_borrow := (s1.market asset).totalBorrow
        let new_total_borrow :=
          if total_borrow > repay_amount then total_borrow - repay_amount else 0
        let s3 := updMarket s2 asset
          { s2.market asset with totalBorrow := new_total_borrow }
        some (s3, repay_amount)

/-- `LendingPool::liquidate` (pool lines 1143-1278).  The returned pair
`(actual_repay, collateral_to_seize)` mirrors the published `liquidate`
event payload; the entry point's return value is `collateral_to_seize`. -/
def liquidate (now : Nat) (oracle_price : Asset → Int) (s : PoolState U)
    (liquidator borrower : U) (repay_asset : Asset) (repay_amount : Int)
    (collateral_asset : Asset) : Option (PoolState U × Int × Int) :=
  let _ := liquidator
  if repay_amount ≤ 0 then none
  else
    -- Step 1: accrue and check the borrower's health factor
    let s1 := updMarket s repay_asset (accrue_interest now (s.market repay_asset))
    let borrower_position := get_user_position oracle_price s1 borrower
    if borrower_position.health_factor ≥ SCALE then none
    else
      -- Step 2: close-factor cap
      let borrower_debt := get_user_debt_with_interest s1 borrower repay_asset
      if borrower_debt = 0 then none
      else
        let max_repay := (borrower_debt * CLOSE_FACTOR) / SCALE
        let actual_repay := if repay_amount > max_repay then max_repay else repay_amount
        -- Step 3: collateral to seize
        let repay_price := get_asset_price oracle_price repay_asset
        let collateral_price := get_asset_price oracle_price collateral_asset
        let repay_value_usd := (actual_repay * repay_price) / SCALE
        let bonus_value_usd := (repay_value_usd * LIQUIDATION_BONUS) / SCALE
        let total_value_usd := repay_value_usd + bonus_value_usd
        let collateral_to_seize := (total_value_usd * SCALE) / collateral_price
        let borrower_collateral := s1.collateral borrower collateral_asset
        if borrower_collateral < collateral_to_seize then none
        else
          -- Step 4: token transfer liquidator → pool; traps on a negative
          -- amount
          if actual_repay < 0 then none
          else
            let borrower_debt_principal := s1.debt borrower repay_asset
            let new_debt :=
              if actual_repay ≥ borrower_debt then 0
              else
                let debt_reduction_ratio :=
                  (actual_repay * INITIAL_EXCHANGE_RATE) / borrower_debt
                borrower_debt_principal -
                  (borrower_debt_principal * debt_reduction_ratio) /
                    INITIAL_EXCHANGE_RATE
            let s2 := setDebt s1 borrower repay_asset new_debt
            let total_borrow := (s1.market repay_asset).totalBorrow
            let new_total_borrow :=
              if total_borrow > actual_repay then total_borrow - actual_repay else 0
            let s3 := updMarket s2 repay_asset
              { s2.market repay_asset with totalBorrow := new_total_borrow }
            let s4 := setCollateral s3 borrower collateral_asset
              (borrower_collateral - collateral_to_seize)
            -- token transfer pool → liquidator of the seized collateral;
            -- traps on a negative amount
            if collateral_to_seize < 0 then none
            else some (s4, actual_repay, collateral_to_seize)


/-!
### Concrete states used by witnesses and counterexamples
-/

/-- A market with supply 1000, borrows 500, fresh index, last accrued at
time 0. -/
def c7_market : Market :=
  { init_market 7500000 8000000 true false 0 with
    totalSupply := 1000
    totalBorrow := 500 }

/-- A single-user pool state at time 1000: the user holds 100,000 XLM
collateral and an existing USDC debt of principal 100 taken at index 1e9,
while the USDC market's borrow index has since grown to 2e9 (so 100 of
accrued interest is not yet capitalized). -/
def c1_state : PoolState Unit :=
  { market := fun a =>
      match a with
      | Asset.XLM => init_market 7500000 8000000 true false 1000
      | Asset.USDC =>
          { init_market 8000000 8500000 true true 1000 with
            totalSupply := 1000000
            totalBorrow := 100
            borrowIndex := 2000000000 }
    shares := fun _ _ => 0
    collateral := fun _ a => match a with | Asset.XLM => 100000 | Asset.USDC => 0
    debt := fun _ a => match a with | Asset.XLM => 0 | Asset.USDC => 100
    userIndex := fun _ _ => 1000000000 }

/-- The pool state after the user borrows 50 more USDC in `c1_state`
(the oracle reports price 0 for every asset). -/
def c1_after : PoolState Unit :=
  match borrow 1000 (fun _ => 0) c1_state () Asset.USDC 50 with
  | some (s, _) => s
  | none => c1_state

/-- A pool state with an unhealthy borrower: 3000 XLM collateral
(value $900) against interest-inclusive USDC debt 1000, so the health
factor is 900 * 80% / 1000 = 0.72 < 1. -/
def c8_state : PoolState Unit :=
  { market := fun a =>
      match a with
      | Asset.XLM => init_market 7500000 8000000 true false 1000
      | Asset.USDC =>
          { init_market 8000000 8500000 true true 1000 with
            totalSupply := 2000
            totalBorrow := 1000 }
    shares := fun _ _ => 0
    collateral := fun _ a => match a with | Asset.XLM => 3000 | Asset.USDC => 0
    debt := fun _ a => match a with | Asset.XLM => 0 | Asset.USDC => 1000
    userIndex := fun _ _ => 1000000000 }

/-- The pool state after liquidating 200 USDC of `c8_state`'s borrower
against XLM collateral. -/
def c8_after : PoolState Unit :=
  match liquidate 1000 (fun _ => 0) c8_state () () Asset.USDC 200 Asset.XLM with
  | some (s, _, _) => s
  | none => c8_state

/-- A pool state where withdrawing 100 of the user's 1000 XLM collateral
would leave the position unhealthy: USDC debt 500 against collateral
value $300 → $270. -/
def c9_state : PoolState Unit :=
  { market := fun a =>
      match a with
      | Asset.XLM => init_market 7500000 8000000 true false 1000
      | Asset.USDC =>
          { init_market 8000000 8500000 true true 1000 with
            totalSupply := 1000
            totalBorrow := 500 }
    shares := fun _ _ => 0
    collateral := fun _ a => match a with | Asset.XLM => 1000 | Asset.USDC => 0
    debt := fun _ a => match a with | Asset.XLM => 0 | Asset.USDC => 500
    userIndex := fun _ _ => 1000000000 }

/-- `0 ≤ total_borrow ≤ total_supply` on a market, the C6 invariant. -/
def BorrowLeSupply (m : Market) : Prop :=
  0 ≤ m.totalBorrow ∧ m.totalBorrow ≤ m.totalSupply

/-- The reserve factor is a fraction of `SCALE`.  The pool only ever
stores `1,000,000` (10%, `init_market`), which satisfies this. -/
def RfOk (m : Market) : Prop :=
  0 ≤ m.reserveFactor ∧ m.reserveFactor ≤ SCALE

instance (m : Market) : Decidable (BorrowLeSupply m) := by
  unfold BorrowLeSupply; infer_instance

instance (m : Market) : Decidable (RfOk m) := by
  unfold RfOk; infer_instance

/-- The C6 invariant over the whole pool: every asset market has a
reserve factor in `[0, SCALE]` (the pool only ever stores 10%) and
`0 ≤ total_borrow ≤ total_supply`. -/
def PoolInv {U : Type} (s : PoolState U) : Prop :=
  ∀ b : Asset, RfOk (s.market b) ∧ BorrowLeSupply (s.market b)

instance {U : Type} (s : PoolState U) : Decidable (PoolInv s) := by
  unfold PoolInv; infer_instance


/-!
## Proofs
-/

/-- The pool's curve is definitionally the rate-model curve at the default
parameters `rate_min=0, rate_opt=400000, rate_max=10000000, u_optimal=8000000`. -/
lemma calculate_borrow_rate_eq_default (u : Int) :
    calculate_borrow_rate u = get_borrow_rate 0 400000 10000000 8000000 u := rfl


/-!
## Monotonicity of the multi-kink curve

Branch-selection lemmas for `raw_borrow_rate`, then zone-local bounds,
then monotonicity assembled by case analysis on the zones of the two
utilizations.
-/

section RateMono

variable {R M uo u : Int}

lemma raw_zone1 (h : u ≤ uo) :
    raw_borrow_rate R M uo u = R * u / uo := by
  simp only [raw_borrow_rate]; rw [if_pos h]

lemma raw_zone2 (h1 : ¬u ≤ uo) (h2 : u ≤ U_85) :
    raw_borrow_rate R M uo u
      = R + (M - R) * 50 * (u - uo) / ((U_85 - uo) * 1000) := by
  simp only [raw_borrow_rate]; rw [if_neg h1, if_pos h2]

lemma raw_zone3 (h1 : ¬u ≤ uo) (h2 : ¬u ≤ U_85) (h3 : u ≤ U_90) :
    raw_borrow_rate R M uo u
      = R + (M - R) * 50 / 1000 + (M - R) * 100 * (u - U_85) / ((U_90 - U_85) * 1000) := by
  simp only [raw_borrow_rate]; rw [if_neg h1, if_neg h2, if_pos h3]

lemma raw_zone4 (h1 : ¬u ≤ uo) (h2 : ¬u ≤ U_85) (h3 : ¬u ≤ U_90) (h4 : u ≤ U_95) :
    raw_borrow_rate R M uo u
      = R + (M - R) * 150 / 1000 + (M - R) * 150 * (u - U_90) / ((U_95 - U_90) * 1000) := by
  simp only [raw_borrow_rate]; rw [if_neg h1, if_neg h2, if_neg h3, if_pos h4]

lemma raw_zone5 (h1 : ¬u ≤ uo) (h2 : ¬u ≤ U_85) (h3 : ¬u ≤ U_90) (h4 : ¬u ≤ U_95)
    (h5 : u ≤ U_99) :
    raw_borrow_rate R M uo u
      = R + (M - R) * 300 / 1000 + (M - R) * 200 * (u - U_95) / ((U_99 - U_95) * 1000) := by
  simp only [raw_borrow_rate]; rw [if_neg h1, if_neg h2, if_neg h3, if_neg h4, if_pos h5]

lemma raw_zone6 (h1 : ¬u ≤ uo) (h2 : ¬u ≤ U_85) (h3 : ¬u ≤ U_90) (h4 : ¬u ≤ U_95)
    (h5 : ¬u ≤ U_99) :
    raw_borrow_rate R M uo u
      = R + (M - R) * 500 / 1000 +
        (M - R) * 500 * (if u ≥ SCALE then SCALE - U_99 else u - U_99)
          / ((SCALE - U_99) * 1000) := by
  simp only [raw_borrow_rate]; rw [if_neg h1, if_neg h2, if_neg h3, if_neg h4, if_neg h5]

/-- Sum of floors is at most the floor of the sum (positive divisor). -/
lemma ediv_add_ediv_le (a b : Int) {c : Int} (hc : 0 < c) :
    a / c + b / c ≤ (a + b) / c := by
  rw [Int.le_ediv_iff_mul_le hc, add_mul]
  have ha := Int.ediv_mul_le a (show c ≠ 0 by omega)
  have hb := Int.ediv_mul_le b (show c ≠ 0 by omega)
  linarith

/-- A zone penalty term is non-negative. -/
lemma pen_nonneg {d k l r : Int} (hd : 0 ≤ d) (hk : 0 ≤ k) (hl : l ≤ u) (hr : 0 ≤ r) :
    0 ≤ d * k * (u - l) / (r * 1000) :=
  Int.ediv_nonneg (mul_nonneg (mul_nonneg hd hk) (by omega))
    (mul_nonneg hr (by norm_num))

/-- A zone penalty term is bounded by its zone's full contribution. -/
lemma pen_le {d k l i : Int} (hd : 0 ≤ d) (hk : 0 ≤ k) (hli : l < i) (hu : u ≤ i) :
    d * k * (u - l) / ((i - l) * 1000) ≤ d * k / 1000 := by
  have hr : (0:Int) < i - l := by omega
  calc d * k * (u - l) / ((i - l) * 1000)
      ≤ d * k * (i - l) / ((i - l) * 1000) :=
        Int.ediv_le_ediv (mul_pos hr (by norm_num))
          (mul_le_mul_of_nonneg_left (by omega) (mul_nonneg hd hk))
    _ = d * k / 1000 := by
        rw [mul_comm (i - l) 1000]
        exact Int.mul_ediv_mul_of_pos_left _ 1000 hr

/-- A zone penalty term grows with utilization. -/
lemma pen_mono {d k l r u1 u2 : Int} (hdk : 0 ≤ d * k) (hr : 0 < r) (h : u1 ≤ u2) :
    d * k * (u1 - l) / (r * 1000) ≤ d * k * (u2 - l) / (r * 1000) :=
  Int.ediv_le_ediv (mul_pos hr (by norm_num))
    (mul_le_mul_of_nonneg_left (by omega) hdk)

/-- Cumulative base penalties grow with the cumulative fraction. -/
lemma base_le {d k1 k2 : Int} (hd : 0 ≤ d) (h : k1 ≤ k2) :
    d * k1 / 1000 ≤ d * k2 / 1000 :=
  Int.ediv_le_ediv (by norm_num) (mul_le_mul_of_nonneg_left h hd)

/-- Two stacked floored fractions of Δ are below the floor of the combined
fraction. -/
lemma base_add_le {d k1 k2 k3 : Int} (hd : 0 ≤ d) (h : k1 + k2 ≤ k3) :
    d * k1 / 1000 + d * k2 / 1000 ≤ d * k3 / 1000 := by
  have h1 := ediv_add_ediv_le (d * k1) (d * k2) (show (0:Int) < 1000 by norm_num)
  have h2 : (d * k1 + d * k2) / 1000 ≤ d * k3 / 1000 :=
    Int.ediv_le_ediv (by norm_num) (by nlinarith)
  linarith

lemma raw_ub_zone1 (hR : 0 ≤ R) (huo : 0 < uo) (h : u ≤ uo) :
    raw_borrow_rate R M uo u ≤ R := by
  rw [raw_zone1 h]
  calc R * u / uo ≤ R * uo / uo :=
        Int.ediv_le_ediv huo (mul_le_mul_of_nonneg_left h hR)
    _ = R := Int.mul_ediv_cancel R (by omega)

lemma raw_ub_zone2 (hd : 0 ≤ M - R) (h1 : ¬u ≤ uo) (h2 : u ≤ U_85) :
    raw_borrow_rate R M uo u ≤ R + (M - R) * 50 / 1000 := by
  rw [raw_zone2 h1 h2]
  have := pen_le (d := M - R) (k := 50) (u := u) (l := uo) (i := U_85) hd (by norm_num) (by omega) h2
  linarith

lemma raw_ub_zone3 (hd : 0 ≤ M - R) (h1 : ¬u ≤ uo) (h2 : ¬u ≤ U_85) (h3 : u ≤ U_90) :
    raw_borrow_rate R M uo u ≤ R + (M - R) * 150 / 1000 := by
  rw [raw_zone3 h1 h2 h3]
  have ha := pen_le (d := M - R) (k := 100) (u := u) (l := U_85) (i := U_90) hd (by norm_num) (by decide) h3
  have hb := base_add_le (d := M - R) hd (show (50:Int) + 100 ≤ 150 by norm_num)
  linarith

lemma raw_ub_zone4 (hd : 0 ≤ M - R) (h1 : ¬u ≤ uo) (h2 : ¬u ≤ U_85) (h3 : ¬u ≤ U_90)
    (h4 : u ≤ U_95) :
    raw_borrow_rate R M uo u ≤ R + (M - R) * 300 / 1000 := by
  rw [raw_zone4 h1 h2 h3 h4]
  have ha := pen_le (d := M - R) (k := 150) (u := u) (l := U_90) (i := U_95) hd (by norm_num) (by decide) h4
  have hb := base_add_le (d := M - R) hd (show (150:Int) + 150 ≤ 300 by norm_num)
  linarith

lemma raw_ub_zone5 (hd : 0 ≤ M - R) (h1 : ¬u ≤ uo) (h2 : ¬u ≤ U_85) (h3 : ¬u ≤ U_90)
    (h4 : ¬u ≤ U_95) (h5 : u ≤ U_99) :
    raw_borrow_rate R M uo u ≤ R + (M - R) * 500 / 1000 := by
  rw [raw_zone5 h1 h2 h3 h4 h5]
  have ha := pen_le (d := M - R) (k := 200) (u := u) (l := U_95) (i := U_99) hd (by norm_num) (by decide) h5
  have hb := base_add_le (d := M - R) hd (show (300:Int) + 200 ≤ 500 by norm_num)
  linarith

lemma raw_lb_zone6 (hd : 0 ≤ M - R) (h1 : ¬u ≤ uo) (h2 : ¬u ≤ U_85) (h3 : ¬u ≤ U_90)
    (h4 : ¬u ≤ U_95) (h5 : ¬u ≤ U_99) :
    R + (M - R) * 500 / 1000 ≤ raw_borrow_rate R M uo u := by
  rw [raw_zone6 h1 h2 h3 h4 h5]
  have hp : (0:Int) ≤ (if u ≥ SCALE then SCALE - U_99 else u - U_99) := by
    split_ifs
    · decide
    · omega
  have : (0:Int) ≤ (M - R) * 500 * (if u ≥ SCALE then SCALE - U_99 else u - U_99)
      / ((SCALE - U_99) * 1000) :=
    Int.ediv_nonneg (mul_nonneg (mul_nonneg hd (by norm_num)) hp) (by decide)
  linarith

lemma raw_lb_zone5 (hd : 0 ≤ M - R) (h1 : ¬u ≤ uo) (h2 : ¬u ≤ U_85) (h3 : ¬u ≤ U_90)
    (h4 : ¬u ≤ U_95) :
    R + (M - R) * 300 / 1000 ≤ raw_borrow_rate R M uo u := by
  by_cases h5 : u ≤ U_99
  · rw [raw_zone5 h1 h2 h3 h4 h5]
    have := pen_nonneg (d := M - R) (k := 200) (u := u) (l := U_95) (r := U_99 - U_95) hd
      (by norm_num) (by omega) (by decide)
    linarith
  · have := raw_lb_zone6 hd h1 h2 h3 h4 h5
    have hb := base_le (d := M - R) hd (show (300:Int) ≤ 500 by norm_num)
    linarith

lemma raw_lb_zone4 (hd : 0 ≤ M - R) (h1 : ¬u ≤ uo) (h2 : ¬u ≤ U_85) (h3 : ¬u ≤ U_90) :
    R + (M - R) * 150 / 1000 ≤ raw_borrow_rate R M uo u := by
  by_cases h4 : u ≤ U_95
  · rw [raw_zone4 h1 h2 h3 h4]
    have := pen_nonneg (d := M - R) (k := 150) (u := u) (l := U_90) (r := U_95 - U_90) hd
      (by norm_num) (by omega) (by decide)
    linarith
  · have := raw_lb_zone5 hd h1 h2 h3 h4
    have hb := base_le (d := M - R) hd (show (150:Int) ≤ 300 by norm_num)
    linarith

lemma raw_lb_zone3 (hd : 0 ≤ M - R) (h1 : ¬u ≤ uo) (h2 : ¬u ≤ U_85) :
    R + (M - R) * 50 / 1000 ≤ raw_borrow_rate R M uo u := by
  by_cases h3 : u ≤ U_90
  · rw [raw_zone3 h1 h2 h3]
    have := pen_nonneg (d := M - R) (k := 100) (u := u) (l := U_85) (r := U_90 - U_85) hd
      (by norm_num) (by omega) (by decide)
    linarith
  · have := raw_lb_zone4 hd h1 h2 h3
    have hb := base_le (d := M - R) hd (show (50:Int) ≤ 150 by norm_num)
    linarith

lemma raw_lb_beyond (hd : 0 ≤ M - R) (h1 : ¬u ≤ uo) :
    R ≤ raw_borrow_rate R M uo u := by
  by_cases h2 : u ≤ U_85
  · rw [raw_zone2 h1 h2]
    have := pen_nonneg (d := M - R) (k := 50) (u := u) (l := uo) (r := U_85 - uo) hd
      (by norm_num) (by omega) (by omega)
    linarith
  · have := raw_lb_zone3 hd h1 h2
    have hb : (0:Int) ≤ (M - R) * 50 / 1000 :=
      Int.ediv_nonneg (mul_nonneg hd (by norm_num)) (by norm_num)
    linarith

/-- Monotonicity of the raw multi-kink curve on `(-∞, SCALE]` for
non-negative `rate_opt ≤ rate_max` and positive optimal utilization. -/
lemma raw_borrow_rate_mono (hR : 0 ≤ R) (hRM : R ≤ M) (huo : 0 < uo) {u1 u2 : Int}
    (h12 : u1 ≤ u2) (h2S : u2 ≤ SCALE) :
    raw_borrow_rate R M uo u1 ≤ raw_borrow_rate R M uo u2 := by
  have hd : (0:Int) ≤ M - R := by omega
  by_cases c1 : u1 ≤ uo
  · by_cases c2 : u2 ≤ uo
    · rw [raw_zone1 c1, raw_zone1 c2]
      exact Int.ediv_le_ediv huo (mul_le_mul_of_nonneg_left h12 hR)
    · exact le_trans (raw_ub_zone1 hR huo c1) (raw_lb_beyond hd c2)
  · have c2 : ¬u2 ≤ uo := by omega
    by_cases a1 : u1 ≤ U_85
    · by_cases a2 : u2 ≤ U_85
      · rw [raw_zone2 c1 a1, raw_zone2 c2 a2]
        have := pen_mono (d := M - R) (k := 50) (l := uo) (r := U_85 - uo)
          (mul_nonneg hd (by norm_num)) (by omega) h12
        linarith
      · exact le_trans (raw_ub_zone2 hd c1 a1) (raw_lb_zone3 hd c2 a2)
    · have a2 : ¬u2 ≤ U_85 := by omega
      by_cases b1 : u1 ≤ U_90
      · by_cases b2 : u2 ≤ U_90
        · rw [raw_zone3 c1 a1 b1, raw_zone3 c2 a2 b2]
          have := pen_mono (d := M - R) (k := 100) (l := U_85) (r := U_90 - U_85)
            (mul_nonneg hd (by norm_num)) (by decide) h12
          linarith
        · exact le_trans (raw_ub_zone3 hd c1 a1 b1) (raw_lb_zone4 hd c2 a2 b2)
      · have b2 : ¬u2 ≤ U_90 := by omega
        by_cases d1 : u1 ≤ U_95
        · by_cases d2 : u2 ≤ U_95
          · rw [raw_zone4 c1 a1 b1 d1, raw_zone4 c2 a2 b2 d2]
            have := pen_mono (d := M - R) (k := 150) (l := U_90) (r := U_95 - U_90)
              (mul_nonneg hd (by norm_num)) (by decide) h12
            linarith
          · exact le_trans (raw_ub_zone4 hd c1 a1 b1 d1) (raw_lb_zone5 hd c2 a2 b2 d2)
        · have d2 : ¬u2 ≤ U_95 := by omega
          by_cases e1 : u1 ≤ U_99
          · by_cases e2 : u2 ≤ U_99
            · rw [raw_zone5 c1 a1 b1 d1 e1, raw_zone5 c2 a2 b2 d2 e2]
              have := pen_mono (d := M - R) (k := 200) (l := U_95) (r := U_99 - U_95)
                (mul_nonneg hd (by norm_num)) (by decide) h12
              linarith
            · exact le_trans (raw_ub_zone5 hd c1 a1 b1 d1 e1)
                (raw_lb_zone6 hd c2 a2 b2 d2 e2)
          · have e2 : ¬u2 ≤ U_99 := by omega
            rw [raw_zone6 c1 a1 b1 d1 e1, raw_zone6 c2 a2 b2 d2 e2]
            have hS : u1 ≤ SCALE := le_trans h12 h2S
            have hp : (if u1 ≥ SCALE then SCALE - U_99 else u1 - U_99)
                ≤ (if u2 ≥ SCALE then SCALE - U_99 else u2 - U_99) := by
              have hSU : U_99 < SCALE := by decide
              split_ifs <;> omega
            have : (M - R) * 500 * (if u1 ≥ SCALE then SCALE - U_99 else u1 - U_99)
                  / ((SCALE - U_99) * 1000)
                ≤ (M - R) * 500 * (if u2 ≥ SCALE then SCALE - U_99 else u2 - U_99)
                  / ((SCALE - U_99) * 1000) :=
              Int.ediv_le_ediv (by decide)
                (mul_le_mul_of_nonneg_left hp (mul_nonneg hd (by norm_num)))
            linarith

/-- Monotonicity of `get_borrow_rate` (the floored curve). -/
lemma get_borrow_rate_mono {rmin : Int} (hR : 0 ≤ R) (hRM : R ≤ M) (huo : 0 < uo)
    {u1 u2 : Int} (h12 : u1 ≤ u2) (h2S : u2 ≤ SCALE) :
    get_borrow_rate rmin R M uo u1 ≤ get_borrow_rate rmin R M uo u2 := by
  have h := raw_borrow_rate_mono hR hRM huo h12 h2S
  simp only [get_borrow_rate]
  split_ifs <;> omega

end RateMono


/-!
## Facts about interest accrual
-/

/-- The floored pool rate is never negative (its `rate_min` is 0). -/
lemma calculate_borrow_rate_nonneg (u : Int) : 0 ≤ calculate_borrow_rate u := by
  rw [calculate_borrow_rate_eq_default]
  simp only [get_borrow_rate]
  split_ifs with h
  · exact le_refl 0
  · exact not_lt.mp h

lemma accrue_totalBorrow (now : Nat) (m : Market) :
    (accrue_interest now m).totalBorrow = m.totalBorrow := by
  simp only [accrue_interest]; split_ifs <;> rfl

lemma accrue_reserveFactor (now : Nat) (m : Market) :
    (accrue_interest now m).reserveFactor = m.reserveFactor := by
  simp only [accrue_interest]; split_ifs <;> rfl

lemma accrue_totalShares (now : Nat) (m : Market) :
    (accrue_interest now m).totalShares = m.totalShares := by
  simp only [accrue_interest]; split_ifs <;> rfl

/-- Accrual can only grow `total_supply`: the supplier share of the
accrued interest is non-negative. -/
lemma accrue_totalSupply_ge (now : Nat) (m : Market) (hrf : RfOk m)
    (hinv : BorrowLeSupply m) :
    m.totalSupply ≤ (accrue_interest now m).totalSupply := by
  simp only [accrue_interest]
  split_ifs with h1 h2
  · exact le_refl _
  · exact le_refl _
  · have helapsed : (0:Int) ≤ (now : Int) - (m.lastAccrualTime : Int) := by omega
    have hrate := calculate_borrow_rate_nonneg ((m.totalBorrow * SCALE) / m.totalSupply)
    have hfac : (0:Int) ≤
        calculate_borrow_rate ((m.totalBorrow * SCALE) / m.totalSupply) *
          ((now : Int) - (m.lastAccrualTime : Int)) / SECONDS_PER_YEAR :=
      Int.ediv_nonneg (mul_nonneg hrate helapsed) (by decide)
    set f := calculate_borrow_rate ((m.totalBorrow * SCALE) / m.totalSupply) *
      ((now : Int) - (m.lastAccrualTime : Int)) / SECONDS_PER_YEAR with hf
    have hI : (0:Int) ≤ m.totalBorrow * f / SCALE :=
      Int.ediv_nonneg (mul_nonneg hinv.1 hfac) (by decide)
    set I := m.totalBorrow * f / SCALE with hIdef
    have hres : I * m.reserveFactor / SCALE ≤ I := by
      calc I * m.reserveFactor / SCALE
          ≤ I * SCALE / SCALE :=
            Int.ediv_le_ediv (by decide) (mul_le_mul_of_nonneg_left hrf.2 hI)
        _ = I := Int.mul_ediv_cancel I (by decide)
    simp only [Market.mk.injEq]
    linarith

/-- Accrual preserves the C6 invariant when the reserve factor is a
fraction of `SCALE`. -/
lemma accrue_BorrowLeSupply (now : Nat) (m : Market) (hrf : RfOk m)
    (hinv : BorrowLeSupply m) :
    BorrowLeSupply (accrue_interest now m) := by
  refine ⟨?_, ?_⟩
  · rw [accrue_totalBorrow]; exact hinv.1
  · rw [accrue_totalBorrow]
    exact le_trans hinv.2 (accrue_totalSupply_ge now m hrf hinv)

lemma accrue_RfOk (now : Nat) (m : Market) (hrf : RfOk m) :
    RfOk (accrue_interest now m) := by
  unfold RfOk
  rw [accrue_reserveFactor]; exact hrf


/-! ### Claims C3 and C4 -/

/-- C3: the spec's two-slope variant at its defaults does return 200,000 /
4,150,000 / 7,900,000 at utilizations 4,000,000 / 9,000,000 / 10,000,000 —
but the pool's internal `calculate_borrow_rate` does not implement it: at
utilization 9,000,000 it returns 1,840,000, not 4,150,000.  This
counterexample refutes the claim as stated at the concrete input 9,000,000. -/
theorem C3_counterexample :
    calculate_borrow_rate 9000000 ≠ 4150000 := by decide

/-- C3 (amended): the two-slope formula with defaults base=0,
slope1=400,000, slope2=7,500,000, U*=8,000,000 returns 200,000 / 4,150,000 /
7,900,000 at utilizations 4,000,000 / 9,000,000 / 10,000,000, while the
pool's internal borrow-rate function — whose stale first doc comment
advertises exactly those example rates — actually implements the
multi-kink curve and returns 200,000 / 1,840,000 / 10,000,000 there. -/
theorem C3_two_slope_values :
    two_slope_rate 0 400000 7500000 8000000 4000000 = 200000 ∧
    two_slope_rate 0 400000 7500000 8000000 9000000 = 4150000 ∧
    two_slope_rate 0 400000 7500000 8000000 10000000 = 7900000 ∧
    calculate_borrow_rate 4000000 = 200000 ∧
    calculate_borrow_rate 9000000 = 1840000 ∧
    calculate_borrow_rate 10000000 = 10000000 := by decide

/-- C4: for every utilization, the pool's hardcoded `calculate_borrow_rate`
returns exactly `InterestRateModel.get_borrow_rate` evaluated at the default
parameters rate_min=0, rate_opt=400,000, rate_max=10,000,000,
u_optimal=8,000,000. -/
theorem C4_pool_copies_model (u : Int) :
    calculate_borrow_rate u = get_borrow_rate 0 400000 10000000 8000000 u :=
  calculate_borrow_rate_eq_default u

/-! ### Claim C5 -/

/-- C5 fails as stated: `initialize` also accepts parameter sets with
negative rates (it only checks `0 < U* < SCALE` and
`rate_min ≤ rate_opt ≤ rate_max`), and for `rate_min = rate_opt =
-1,000,000, rate_max = 0, U* = 8,000,000` the curve is strictly
decreasing between the accepted utilizations `u1 = 0 < u2 = 8,000,000`
inside `[0, SCALE]`: `rate(0) = 0 > rate(8,000,000) = -1,000,000`. -/
theorem C5_counterexample :
    validRateParams (-1000000) (-1000000) 0 8000000 ∧
    (0:Int) ≤ 0 ∧ (0:Int) < 8000000 ∧ (8000000:Int) ≤ SCALE ∧
    get_borrow_rate (-1000000) (-1000000) 0 8000000 8000000 <
      get_borrow_rate (-1000000) (-1000000) 0 8000000 0 := by decide

/-- C5 (amended): for every parameter set accepted by
`InterestRateModel.initialize` that additionally has a non-negative rate
floor (`0 ≤ rate_min`, as in the defaults), `get_borrow_rate` is monotone
in the utilization over `[0, SCALE]`; the pool's internal
`calculate_borrow_rate` is monotone over `[0, SCALE]` unconditionally. -/
theorem C5_monotonicity :
    (∀ rate_min rate_opt rate_max u_optimal,
        validRateParams rate_min rate_opt rate_max u_optimal → 0 ≤ rate_min →
        ∀ u1 u2 : Int, 0 ≤ u1 → u1 < u2 → u2 ≤ SCALE →
        get_borrow_rate rate_min rate_opt rate_max u_optimal u1 ≤
          get_borrow_rate rate_min rate_opt rate_max u_optimal u2) ∧
    (∀ u1 u2 : Int, 0 ≤ u1 → u1 < u2 → u2 ≤ SCALE →
        calculate_borrow_rate u1 ≤ calculate_borrow_rate u2) := by
  constructor
  · intro rmin R M uo hv hmin u1 u2 _ h12 h2S
    exact get_borrow_rate_mono (le_trans hmin hv.2.1) (hv.2.2) hv.1.1 (le_of_lt h12) h2S
  · intro u1 u2 _ h12 h2S
    rw [calculate_borrow_rate_eq_default, calculate_borrow_rate_eq_default]
    exact get_borrow_rate_mono (by norm_num) (by norm_num) (by norm_num)
      (le_of_lt h12) h2S

/-- Witness for C5: the amended theorem applied at the default parameters
and the concrete utilizations 4,000,000 < 9,000,000. -/
theorem C5_monotonicity_witness :
    validRateParams 0 400000 10000000 8000000 ∧ (0:Int) ≤ 0 ∧
    (0:Int) ≤ 4000000 ∧ (4000000:Int) < 9000000 ∧ (9000000:Int) ≤ SCALE ∧
    get_borrow_rate 0 400000 10000000 8000000 4000000 ≤
      get_borrow_rate 0 400000 10000000 8000000 9000000 :=
  ⟨by decide, by decide, by decide, by decide, by decide,
    C5_monotonicity.1 0 400000 10000000 8000000 (by decide) (by decide)
      4000000 9000000 (by decide) (by decide) (by decide)⟩

/-! ### Claim C7 -/

/-- C7: `accrue_interest` never decreases the stored borrow index, for any
market with non-negative `total_supply` and `total_borrow` and positive
`borrow_index`, at any current timestamp. -/
theorem C7_borrow_index_monotone (m : Market) (now : Nat)
    (hTS : 0 ≤ m.totalSupply) (hTB : 0 ≤ m.totalBorrow)
    (hidx : 0 < m.borrowIndex) :
    m.borrowIndex ≤ (accrue_interest now m).borrowIndex := by
  simp only [accrue_interest]
  split_ifs with h1 h2
  · exact le_refl _
  · exact le_refl _
  · have helapsed : (0:Int) ≤ (now : Int) - (m.lastAccrualTime : Int) := by omega
    have hrate := calculate_borrow_rate_nonneg ((m.totalBorrow * SCALE) / m.totalSupply)
    have hfac : (0:Int) ≤
        calculate_borrow_rate ((m.totalBorrow * SCALE) / m.totalSupply) *
          ((now : Int) - (m.lastAccrualTime : Int)) / SECONDS_PER_YEAR :=
      Int.ediv_nonneg (mul_nonneg hrate helapsed) (by decide)
    have hstep : (0:Int) ≤ m.borrowIndex *
        (calculate_borrow_rate ((m.totalBorrow * SCALE) / m.totalSupply) *
          ((now : Int) - (m.lastAccrualTime : Int)) / SECONDS_PER_YEAR) / SCALE :=
      Int.ediv_nonneg (mul_nonneg (le_of_lt hidx) hfac) (by decide)
    show m.borrowIndex ≤ m.borrowIndex + _
    linarith

/-- Witness for C7 at a concrete market one hour past its last accrual. -/
theorem C7_witness :
    (0:Int) ≤ (c7_market).totalSupply ∧ (0:Int) ≤ (c7_market).totalBorrow ∧
    (0:Int) < (c7_market).borrowIndex ∧
    (c7_market).borrowIndex ≤ (accrue_interest 3600 c7_market).borrowIndex :=
  ⟨by decide, by decide, by decide,
    C7_borrow_index_monotone c7_market 3600 (by decide) (by decide) (by decide)⟩

/-! ### Claim C10 -/

/-- C10: the health factor computed by `get_user_position` is the no-debt
sentinel `999 * SCALE` whenever the user's USD debt value is zero, and
otherwise `collateral_value_usd * threshold / debt_value_usd` where
`threshold` is always the XLM market's stored liquidation threshold —
regardless of which assets the collateral or debt consist of; the pool's
initialization stores 8,000,000 (80%) as that threshold. -/
theorem C10_health_factor_formula {V : Type} [DecidableEq V]
    (oracle_price : Asset → Int) (s : PoolState V) (user : V) (now : Nat) :
    (get_user_position oracle_price s user).health_factor =
      (if (get_user_position oracle_price s user).debt_value_usd = 0 then
        999 * SCALE
       else
        (get_user_position oracle_price s user).collateral_value_usd *
            (s.market Asset.XLM).liqThreshold /
          (get_user_position oracle_price s user).debt_value_usd) ∧
    ((initial_pool V now).market Asset.XLM).liqThreshold = 8000000 :=
  ⟨rfl, rfl⟩

/-! ### Claim C1 -/

/-- C1 names a real bug: in `c1_state` the user's interest-inclusive USDC
debt is 200 (principal 100 at origin index 1e9, current index 2e9), yet
after borrowing 50 more the pool reports a total debt of 150, not
200 + 50 = 250 — `borrow` adds the new amount to the stored principal and
resets the user's origin index to the current index without first
capitalizing the accrued interest, erasing the 100 of accrued interest. -/
theorem C1_borrow_erases_accrued_interest :
    get_user_debt_total c1_state () Asset.USDC = 200 ∧
    (borrow 1000 (fun _ => 0) c1_state () Asset.USDC 50).isSome = true ∧
    get_user_debt_total c1_after () Asset.USDC = 150 ∧
    get_user_debt_total c1_after () Asset.USDC ≠ 200 + 50 := by decide

/-! ### Claim C2 -/

/-- C2 fails as stated: with every oracle price reported as 0 (all prices
unset), the borrow in `c1_state` — an operation that consumes both the
XLM and USDC prices for its LTV check — still succeeds instead of
rejecting. -/
theorem C2_counterexample :
    (fun _ : Asset => (0 : Int)) Asset.USDC = 0 ∧
    (borrow 1000 (fun _ => 0) c1_state () Asset.USDC 50).isSome = true := by decide

/-- C2 (amended): the pool never fails closed on an unset price.  As
shipped (`USE_ORACLE = false`) `get_asset_price` ignores the price source
entirely and returns the hardcoded fallback price, and even with the
oracle enabled a reported 0 is silently replaced by the same positive
fallback price (XLM $0.30, USDC $1.00) rather than rejecting. -/
theorem C2_zero_price_uses_fallback :
    (∀ (p : Asset → Int) (a : Asset), get_asset_price p a = get_fallback_price a) ∧
    (∀ (p : Asset → Int) (a : Asset), p a = 0 →
      get_asset_price_flagged true p a = get_fallback_price a) ∧
    (∀ a : Asset, 0 < get_fallback_price a) := by
  refine ⟨fun p a => rfl, fun p a h => ?_, fun a => ?_⟩
  · simp [get_asset_price_flagged, h]
  · cases a <;> decide

/-- Witness for C2 (amended): the zero reported price for XLM resolves to
the fallback price. -/
theorem C2_zero_price_uses_fallback_witness :
    (fun _ : Asset => (0 : Int)) Asset.XLM = 0 ∧
    get_asset_price_flagged true (fun _ => 0) Asset.XLM =
      get_fallback_price Asset.XLM :=
  ⟨rfl, C2_zero_price_uses_fallback.2.1 (fun _ => 0) Asset.XLM rfl⟩

/-! ### Claim C9 -/

/-- Writing back the previously read collateral balance after a temporary
update restores the original state exactly. -/
lemma setCollateral_restore (s : PoolState U) (u : U) (a : Asset) (v : Int) :
    setCollateral (setCollateral s u a v) u a (s.collateral u a) = s := by
  cases s
  simp only [setCollateral]
  congr 1
  funext u' b
  by_cases h : u' = u ∧ b = a
  · obtain ⟨h1, h2⟩ := h
    subst h1; subst h2
    simp
  · simp [h]

/-- C9: when the user has positive USD debt value and the position
re-valued at the hypothetical post-withdrawal collateral balance has a
health factor below `SCALE`, `withdraw_collateral` rejects
(UnhealthyWithdrawal) and the stored state — including the temporarily
decremented collateral balance, which the code writes back before
panicking — is exactly the state before the call. -/
theorem C9_unhealthy_withdrawal_no_effect (oracle_price : Asset → Int)
    (s : PoolState U) (user : U) (asset : Asset) (amount : Int)
    (hpos : 0 < amount)
    (hcoll : ¬s.collateral user asset < amount)
    (hdebt : (get_user_position oracle_price
        (setCollateral s user asset (s.collateral user asset - amount))
        user).debt_value_usd > 0)
    (hhf : (get_user_position oracle_price
        (setCollateral s user asset (s.collateral user asset - amount))
        user).health_factor < SCALE) :
    withdraw_collateral oracle_price s user asset amount = (s, none) := by
  simp only [withdraw_collateral]
  rw [if_neg (by omega), if_neg hcoll, if_pos ⟨hdebt, hhf⟩,
    setCollateral_restore]

/-- Witness for C9 at the concrete state `c9_state`: withdrawing 100 XLM
collateral would drop the health factor to 0.432, so the call rejects and
returns the untouched state. -/
theorem C9_witness :
    (0:Int) < 100 ∧ ¬c9_state.collateral () Asset.XLM < 100 ∧
    (get_user_position (fun _ => 0)
      (setCollateral c9_state () Asset.XLM
        (c9_state.collateral () Asset.XLM - 100)) ()).debt_value_usd > 0 ∧
    (get_user_position (fun _ => 0)
      (setCollateral c9_state () Asset.XLM
        (c9_state.collateral () Asset.XLM - 100)) ()).health_factor < SCALE ∧
    withdraw_collateral (fun _ => 0) c9_state () Asset.XLM 100 = (c9_state, none) :=
  ⟨by decide, by decide, by decide, by decide,
    C9_unhealthy_withdrawal_no_effect (fun _ => 0) c9_state () Asset.XLM 100
      (by decide) (by decide) (by decide) (by decide)⟩

/-! ### Claim C8 -/

/-- C8: every successful `liquidate` call repays exactly
`min(requested, debt * CLOSE_FACTOR / SCALE)` of the borrower's
interest-inclusive (post-accrual) debt — an oversized request is silently
capped, not rejected — and returns a seized-collateral amount equal to
the repay USD value plus the 5% bonus converted at the collateral price
under the code's integer divisions. -/
theorem C8_liquidation_cap_and_seizure (now : Nat) (oracle_price : Asset → Int)
    (s : PoolState U) (liquidator borrower : U) (repay_asset : Asset)
    (repay_amount : Int) (collateral_asset : Asset)
    (s' : PoolState U) (r seize : Int)
    (h : liquidate now oracle_price s liquidator borrower repay_asset repay_amount
        collateral_asset = some (s', r, seize)) :
    r = min repay_amount
        (get_user_debt_with_interest
            (updMarket s repay_asset (accrue_interest now (s.market repay_asset)))
            borrower repay_asset * CLOSE_FACTOR / SCALE) ∧
    seize = (r * get_asset_price oracle_price repay_asset / SCALE +
        r * get_asset_price oracle_price repay_asset / SCALE *
          LIQUIDATION_BONUS / SCALE) *
        SCALE / get_asset_price oracle_price collateral_asset := by
  simp only [liquidate] at h
  split_ifs at h <;>
    first
      | exact Option.noConfusion h
      | (rw [Option.some.injEq, Prod.mk.injEq, Prod.mk.injEq] at h
         obtain ⟨-, h2, h3⟩ := h
         refine ⟨?_, ?_⟩
         · rw [← h2]; omega
         · rw [← h3, ← h2])

/-- Witness for C8: liquidating 200 USDC of `c8_state`'s unhealthy
borrower (debt 1000, cap 500) repays 200 = min(200, 500) and seizes
700 XLM = ($200 + 5%) / $0.30. -/
theorem C8_witness :
    liquidate 1000 (fun _ => 0) c8_state () () Asset.USDC 200 Asset.XLM =
      some (c8_after, 200, 700) ∧
    (200 : Int) = min 200
        (get_user_debt_with_interest
            (updMarket c8_state Asset.USDC
              (accrue_interest 1000 (c8_state.market Asset.USDC)))
            () Asset.USDC * CLOSE_FACTOR / SCALE) ∧
    (700 : Int) = (200 * get_asset_price (fun _ => 0) Asset.USDC / SCALE +
        200 * get_asset_price (fun _ => 0) Asset.USDC / SCALE *
          LIQUIDATION_BONUS / SCALE) *
        SCALE / get_asset_price (fun _ => 0) Asset.XLM := by
  have h : liquidate 1000 (fun _ => 0) c8_state () () Asset.USDC 200 Asset.XLM =
      some (c8_after, 200, 700) := rfl
  refine ⟨h, ?_, ?_⟩
  · exact (C8_liquidation_cap_and_seizure 1000 (fun _ => 0) c8_state () ()
      Asset.USDC 200 Asset.XLM c8_after 200 700 h).1
  · exact (C8_liquidation_cap_and_seizure 1000 (fun _ => 0) c8_state () ()
      Asset.USDC 200 Asset.XLM c8_after 200 700 h).2

/-! ### Claim C6 -/

lemma updMarket_market_eq (s : PoolState U) (a : Asset) (m : Market) (b : Asset) :
    (updMarket s a m).market b = if b = a then m else s.market b := rfl

lemma updMarket_market_self (s : PoolState U) (a : Asset) (m : Market) :
    (updMarket s a m).market a = m := by simp [updMarket]

lemma updMarket_market_ne {b a : Asset} (hb : b ≠ a) (s : PoolState U) (m : Market) :
    (updMarket s a m).market b = s.market b := by simp [updMarket, hb]

lemma setShares_market (s : PoolState U) (u : U) (a : Asset) (v : Int) :
    (setShares s u a v).market = s.market := rfl

lemma setCollateral_market (s : PoolState U) (u : U) (a : Asset) (v : Int) :
    (setCollateral s u a v).market = s.market := rfl

lemma setDebt_market (s : PoolState U) (u : U) (a : Asset) (v : Int) :
    (setDebt s u a v).market = s.market := rfl

lemma setUserIndex_market (s : PoolState U) (u : U) (a : Asset) (v : Int) :
    (setUserIndex s u a v).market = s.market := rfl

lemma supply_PoolInv {now : Nat} {s : PoolState U} {user : U} {asset : Asset}
    {amount : Int} {s' : PoolState U} {minted : Int}
    (hinv : PoolInv s) (h : supply now s user asset amount = some (s', minted)) :
    PoolInv s' := by
  simp only [supply] at h
  split_ifs at h with h1 h2 <;>
    first
      | exact Option.noConfusion h
      | (rw [Option.some.injEq, Prod.mk.injEq] at h
         obtain ⟨hs, -⟩ := h
         subst hs
         intro b
         rcases eq_or_ne b asset with hb | hb
         · subst hb
           simp only [updMarket_market_self, setShares_market]
           have hrf := accrue_RfOk now (s.market b) (hinv b).1
           have hbs := accrue_BorrowLeSupply now (s.market b) (hinv b).1 (hinv b).2
           refine ⟨hrf, hbs.1, ?_⟩
           have h2' := hbs.2
           show (accrue_interest now (s.market b)).totalBorrow ≤
             (accrue_interest now (s.market b)).totalSupply + amount
           omega
         · simp only [setShares_market, updMarket_market_ne hb]
           exact hinv b)

lemma withdraw_PoolInv {now : Nat} {s : PoolState U} {user : U} {asset : Asset}
    {share_amount : Int} {s' : PoolState U} {out : Int}
    (hinv : PoolInv s)
    (h : withdraw now s user asset share_amount = some (s', out)) :
    PoolInv s' := by
  simp only [withdraw] at h
  split_ifs at h with h1 h2 h3 h4 <;>
    first
      | exact Option.noConfusion h
      | (rw [Option.some.injEq, Prod.mk.injEq] at h
         obtain ⟨hs, -⟩ := h
         subst hs
         intro b
         rcases eq_or_ne b asset with hb | hb
         · subst hb
           simp only [updMarket_market_self, setShares_market]
           have hrf := accrue_RfOk now (s.market b) (hinv b).1
           have hbs := accrue_BorrowLeSupply now (s.market b) (hinv b).1 (hinv b).2
           refine ⟨hrf, hbs.1, ?_⟩
           simp only [updMarket_market_self] at h3
           have h3' := not_lt.mp h3
           have hb1 := hbs.1
           have hb2 := hbs.2
           show (accrue_interest now (s.market b)).totalBorrow ≤
             (accrue_interest now (s.market b)).totalSupply -
               share_amount *
                 get_exchange_rate_internal (accrue_interest now (s.market b)) /
                 INITIAL_EXCHANGE_RATE
           linarith
         · simp only [setShares_market, updMarket_market_ne hb]
           exact hinv b)

lemma deposit_collateral_PoolInv {s : PoolState U} {user : U} {asset : Asset}
    {amount : Int} {s' : PoolState U} {out : Int}
    (hinv : PoolInv s)
    (h : deposit_collateral s user asset amount = some (s', out)) :
    PoolInv s' := by
  simp only [deposit_collateral] at h
  split_ifs at h <;>
    first
      | exact Option.noConfusion h
      | (rw [Option.some.injEq, Prod.mk.injEq] at h
         obtain ⟨hs, -⟩ := h
         subst hs
         exact hinv)

lemma withdraw_collateral_PoolInv {oracle_price : Asset → Int} {s : PoolState U}
    {user : U} {asset : Asset} {amount : Int}
    (hinv : PoolInv s) :
    PoolInv (withdraw_collateral oracle_price s user asset amount).1 := by
  simp only [withdraw_collateral]
  split_ifs <;> exact hinv

lemma borrow_PoolInv {now : Nat} {oracle_price : Asset → Int} {s : PoolState U}
    {user : U} {asset : Asset} {amount : Int} {s' : PoolState U} {out : Int}
    (hinv : PoolInv s)
    (h : borrow now oracle_price s user asset amount = some (s', out)) :
    PoolInv s' := by
  simp only [borrow] at h
  split_ifs at h with h1 h2 h3 h4 <;>
    first
      | exact Option.noConfusion h
      | (rw [Option.some.injEq, Prod.mk.injEq] at h
         obtain ⟨hs, -⟩ := h
         subst hs
         intro b
         rcases eq_or_ne b asset with hb | hb
         · subst hb
           simp only [updMarket_market_self, setUserIndex_market, setDebt_market]
           have hrf := accrue_RfOk now (s.market b) (hinv b).1
           have hbs := accrue_BorrowLeSupply now (s.market b) (hinv b).1 (hinv b).2
           simp only [updMarket_market_self] at h3
           have hb1 := hbs.1
           have hb2 := hbs.2
           refine ⟨hrf, ?_, ?_⟩
           · show (0:Int) ≤ (accrue_interest now (s.market b)).totalBorrow + amount
             omega
           · show (accrue_interest now (s.market b)).totalBorrow + amount ≤
               (accrue_interest now (s.market b)).totalSupply
             omega
         · simp only [setUserIndex_market, setDebt_market, updMarket_market_ne hb]
           exact hinv b)

lemma repay_PoolInv {now : Nat} {s : PoolState U} {user : U} {asset : Asset}
    {amount : Int} {s' : PoolState U} {out : Int}
    (hinv : PoolInv s) (h : repay now s user asset amount = some (s', out)) :
    PoolInv s' := by
  simp only [repay] at h
  split_ifs at h with h1 h2 h3 h4 <;>
    first
      | exact Option.noConfusion h
      | (rw [Option.some.injEq, Prod.mk.injEq] at h
         obtain ⟨hs, -⟩ := h
         subst hs
         intro b
         rcases eq_or_ne b asset with hb | hb
         · subst hb
           simp only [updMarket_market_self, setDebt_market] at *
           have hrf := accrue_RfOk now (s.market b) (hinv b).1
           have hbs := accrue_BorrowLeSupply now (s.market b) (hinv b).1 (hinv b).2
           obtain ⟨hb1, hb2⟩ := hbs
           refine ⟨hrf, ?_, ?_⟩ <;> (dsimp only; omega)
         · simp only [setDebt_market, updMarket_market_ne hb]
           exact hinv b)

set_option maxHeartbeats 2000000 in
lemma liquidate_PoolInv {now : Nat} {oracle_price : Asset → Int} {s : PoolState U}
    {liquidator borrower : U} {repay_asset : Asset} {repay_amount : Int}
    {collateral_asset : Asset} {s' : PoolState U} {r seize : Int}
    (hinv : PoolInv s)
    (h : liquidate now oracle_price s liquidator borrower repay_asset repay_amount
        collateral_asset = some (s', r, seize)) :
    PoolInv s' := by
  simp only [liquidate] at h
  split_ifs at h <;>
    first
      | exact Option.noConfusion h
      | (rw [Option.some.injEq, Prod.mk.injEq, Prod.mk.injEq] at h
         obtain ⟨hs, -, -⟩ := h
         subst hs
         intro b
         rcases eq_or_ne b repay_asset with hb | hb
         · subst hb
           simp only [setCollateral_market, updMarket_market_self, setDebt_market] at *
           have hrf := accrue_RfOk now (s.market b) (hinv b).1
           have hbs := accrue_BorrowLeSupply now (s.market b) (hinv b).1 (hinv b).2
           obtain ⟨hb1, hb2⟩ := hbs
           refine ⟨hrf, ?_, ?_⟩ <;> (dsimp only; omega)
         · simp only [setCollateral_market, setDebt_market, updMarket_market_ne hb]
           exact hinv b)

/-- C6: the market invariant `0 ≤ total_borrow ≤ total_supply` (together
with the reserve-factor bound `0 ≤ reserve_factor ≤ SCALE`, which the
pool establishes at initialization and never changes) is preserved by
`accrue_interest` and by every successful public operation — `supply`,
`withdraw`, `deposit_collateral`, `withdraw_collateral`, `borrow`,
`repay` and `liquidate`; a rejected operation panics, which reverts every
write, so it trivially preserves the invariant as well. -/
theorem C6_invariant_preserved :
    (∀ (now : Nat) (m : Market), RfOk m → BorrowLeSupply m →
      BorrowLeSupply (accrue_interest now m)) ∧
    (∀ (now : Nat) (s : PoolState U) (user : U) (asset : Asset) (amount : Int)
      (s' : PoolState U) (out : Int), PoolInv s →
      supply now s user asset amount = some (s', out) → PoolInv s') ∧
    (∀ (now : Nat) (s : PoolState U) (user : U) (asset : Asset) (amount : Int)
      (s' : PoolState U) (out : Int), PoolInv s →
      withdraw now s user asset amount = some (s', out) → PoolInv s') ∧
    (∀ (s : PoolState U) (user : U) (asset : Asset) (amount : Int)
      (s' : PoolState U) (out : Int), PoolInv s →
      deposit_collateral s user asset amount = some (s', out) → PoolInv s') ∧
    (∀ (oracle_price : Asset → Int) (s : PoolState U) (user : U) (asset : Asset)
      (amount : Int), PoolInv s →
      PoolInv (withdraw_collateral oracle_price s user asset amount).1) ∧
    (∀ (now : Nat) (oracle_price : Asset → Int) (s : PoolState U) (user : U)
      (asset : Asset) (amount : Int) (s' : PoolState U) (out : Int), PoolInv s →
      borrow now oracle_price s user asset amount = some (s', out) → PoolInv s') ∧
    (∀ (now : Nat) (s : PoolState U) (user : U) (asset : Asset) (amount : Int)
      (s' : PoolState U) (out : Int), PoolInv s →
      repay now s user asset amount = some (s', out) → PoolInv s') ∧
    (∀ (now : Nat) (oracle_price : Asset → Int) (s : PoolState U)
      (liquidator borrower : U) (repay_asset : Asset) (repay_amount : Int)
      (collateral_asset : Asset) (s' : PoolState U) (r seize : Int), PoolInv s →
      liquidate now oracle_price s liquidator borrower repay_asset repay_amount
        collateral_asset = some (s', r, seize) → PoolInv s') :=
  ⟨fun now m hrf hbs => accrue_BorrowLeSupply now m hrf hbs,
   fun _ _ _ _ _ _ _ hinv h => supply_PoolInv hinv h,
   fun _ _ _ _ _ _ _ hinv h => withdraw_PoolInv hinv h,
   fun _ _ _ _ _ _ hinv h => deposit_collateral_PoolInv hinv h,
   fun _ _ _ _ _ hinv => withdraw_collateral_PoolInv hinv,
   fun _ _ _ _ _ _ _ _ hinv h => borrow_PoolInv hinv h,
   fun _ _ _ _ _ _ _ hinv h => repay_PoolInv hinv h,
   fun _ _ _ _ _ _ _ _ _ _ _ hinv h => liquidate_PoolInv hinv h⟩

/-- Witness for C6: `c1_state` satisfies the invariant, the concrete
borrow of 50 USDC succeeds there, and the resulting state `c1_after`
satisfies the invariant again (by the borrow component of the theorem). -/
theorem C6_invariant_witness :
    PoolInv c1_state ∧
    borrow 1000 (fun _ => 0) c1_state () Asset.USDC 50 = some (c1_after, 50) ∧
    PoolInv c1_after := by
  have hb : borrow 1000 (fun _ => 0) c1_state () Asset.USDC 50 =
      some (c1_after, 50) := rfl
  exact ⟨by decide, hb,
    C6_invariant_preserved.2.2.2.2.2.1 1000 (fun _ => 0) c1_state () Asset.USDC
      50 c1_after 50 (by decide) hb⟩

end PoolOps

end Stellend
